import Mathlib

/-!
Verification development for the grype package-normalization core
(`grype/pkg/package.go`): the source-RPM filename parser, the
per-ecosystem upstream/metadata extractors, the metadata dispatcher and
catalog lookup, shallowly embedded in Lean.

Go strings are modelled as Lean `String`; Go nil-able pointers and
`interface{}` metadata blobs as `Option` and a closed inductive sum;
the `log.Warnf` side channel as an explicit list of emitted warnings in
the result of each function.
-/

namespace Grype

/-! ### Regular-expression engine

The source compiles the anchored pattern
`^(?P<name>.*)-(?P<version>.*)-(?P<release>.*)\.(?P<arch>[a-zA-Z][^.]+)(\.rpm)$`
and matches with Go `regexp` (leftmost-first, greedy-preferring submatch
semantics, identical to a backtracking search for this pattern).  The
pattern only uses literals, character classes, greedy star/plus of a
class, sequencing and capture groups, so the engine is specialized to
those constructs, with a backtracking matcher in continuation-passing
style that tries longer matches of each greedy operator first. -/

/-- Character classes occurring in the source pattern: `.` (any character
except newline), `[a-zA-Z]`, `[^.]`. -/
inductive CharClass where
  | dot
  | alpha
  | notDot
deriving DecidableEq

def CharClass.matches : CharClass → Char → Bool
  | .dot, c => c != '\n'
  | .alpha, c => (('a' ≤ c) && (c ≤ 'z')) || (('A' ≤ c) && (c ≤ 'Z'))
  | .notDot, c => c != '.'

/-- Abstract syntax of the regular expressions used by the source pattern.
Star and plus are greedy, as in Go `regexp` without the `?` modifier. -/
inductive RE where
  | lit (c : Char)
  | cls (cc : CharClass)
  | seq (a b : RE)
  | star (cc : CharClass)
  | plus (cc : CharClass)
  | group (gname : String) (r : RE)

/-- Greedy star of a character class in continuation-passing style: consume
a matching character and recurse first (longer matches preferred), fall
back to stopping at the current position. -/
def starRun (cc : CharClass) (k : List Char → Option (List (String × String))) :
    List Char → Option (List (String × String))
  | [] => k []
  | c :: rest =>
    if cc.matches c then
      match starRun cc k rest with
      | some r => some r
      | none => k (c :: rest)
    else k (c :: rest)

/-- Backtracking matcher.  `reRun r s caps k` matches `r` against a prefix
of `s`, threading the capture list `caps`, and calls the continuation `k`
with the remaining input and updated captures; alternatives are tried in
leftmost-first order with greedy operators preferring longer matches,
which is the documented submatch semantics of Go `regexp`. -/
def reRun (r : RE) (s : List Char) (caps : List (String × String))
    (k : List Char → List (String × String) → Option (List (String × String))) :
    Option (List (String × String)) :=
  match r with
  | .lit c =>
    match s with
    | [] => none
    | x :: rest => if x == c then k rest caps else none
  | .cls cc =>
    match s with
    | [] => none
    | x :: rest => if cc.matches x then k rest caps else none
  | .seq a b => reRun a s caps (fun s1 caps1 => reRun b s1 caps1 k)
  | .star cc => starRun cc (fun s1 => k s1 caps) s
  | .plus cc =>
    match s with
    | [] => none
    | x :: rest =>
      if cc.matches x then starRun cc (fun s1 => k s1 caps) rest else none
  | .group gname r1 =>
    reRun r1 s caps (fun s1 caps1 =>
      k s1 (caps1 ++ [(gname, String.mk (s.take (s.length - s1.length)))]))

/-- Match a fully `^...$`-anchored expression against the whole string,
returning the named captures of the first (leftmost-first) match, or
`none` when the expression does not match. -/
def reFullMatch (r : RE) (s : String) : Option (List (String × String)) :=
  reRun r s.data [] (fun rest caps => if rest.isEmpty then some caps else none)

/-- The compiled pattern `rpmPackageNamePattern` of the source:
`^(?P<name>.*)-(?P<version>.*)-(?P<release>.*)\.(?P<arch>[a-zA-Z][^.]+)(\.rpm)$`.
The trailing `(\.rpm)` group is unnamed in the source and captures
nothing that downstream code reads, so it is embedded without a group
wrapper. -/
def rpmPackageNamePattern : RE :=
  .seq (.group "name" (.star .dot))
  (.seq (.lit '-')
  (.seq (.group "version" (.star .dot))
  (.seq (.lit '-')
  (.seq (.group "release" (.star .dot))
  (.seq (.lit '.')
  (.seq (.group "arch" (.seq (.cls .alpha) (.plus .notDot)))
  (.seq (.lit '.') (.seq (.lit 'r') (.seq (.lit 'p') (.lit 'm'))))))))))

/-- Look a captured group up by name, defaulting to the empty string, the
behaviour of a Go `map[string]string` read. -/
def capLookup (caps : List (String × String)) (gname : String) : String :=
  match caps.find? (fun kv => kv.1 == gname) with
  | some kv => kv.2
  | none => ""

/-- Modelled from the spec: the grype internal capture-group matcher
(`internal.MatchCaptureGroups`, not under src) applies a named-group
regular expression to a string and returns a mapping from group name to
matched text; when the expression does not match at all, every declared
group name maps to the empty string. -/
def MatchCaptureGroups (r : RE) (s : String) : String → String :=
  match reFullMatch r s with
  | none => fun _ => ""
  | some caps => fun gname => capLookup caps gname

/-- Model of `getNameAndELVersion` of the source: run the pattern over the
source-RPM filename and return the captured name together with the
version and release joined by a hyphen. -/
def getNameAndELVersion (sourceRpm : String) : String × String :=
  let groupMatches := MatchCaptureGroups rpmPackageNamePattern sourceRpm
  let version := groupMatches "version" ++ "-" ++ groupMatches "release"
  (groupMatches "name", version)

/-! ### String helpers standing in for Go library functions -/

/-- Split a character list at every occurrence of `sep`, the helper behind
the model of `strings.SplitN`/qualifier parsing.  Always returns at least
one (possibly empty) segment. -/
def splitOnCharList (sep : Char) : List Char → List (List Char)
  | [] => [[]]
  | c :: rest =>
    if c == sep then [] :: splitOnCharList sep rest
    else
      match splitOnCharList sep rest with
      | [] => [[c]]
      | seg :: segs => (c :: seg) :: segs

/-- Split at the first occurrence of `sep`: `some (before, after)` when
`sep` occurs, `none` otherwise.  Models `strings.SplitN(s, sep, 2)`
(which returns the whole string when the separator is absent). -/
def splitFirst (sep : Char) : List Char → Option (List Char × List Char)
  | [] => none
  | c :: rest =>
    if c == sep then some ([], rest)
    else
      match splitFirst sep rest with
      | none => none
      | some (a, b) => some (c :: a, b)

/-- Modelled from the Go `strconv.Atoi` on the values this code ever feeds
it: an optional sign followed by one or more decimal digits parses to the
signed integer, anything else is a parse error (`none`).  Machine-word
overflow is not modelled; the claims only exercise small epochs. -/
def decDigitsToNat : List Char → Option Nat
  | [] => none
  | l => l.foldl (fun acc c =>
      match acc with
      | none => none
      | some n => if '0' ≤ c ∧ c ≤ '9' then some (n * 10 + (c.toNat - '0'.toNat)) else none)
      (some 0)

def Atoi (s : String) : Option Int :=
  match s.data with
  | [] => none
  | c :: rest =>
    if c == '+' then (decDigitsToNat rest).map Int.ofNat
    else if c == '-' then (decDigitsToNat rest).map (fun n => -(Int.ofNat n))
    else (decDigitsToNat (c :: rest)).map Int.ofNat

/-! ### Package-URL qualifiers -/

/-- Modelled from the spec: the qualifier keys read downstream are the
Package-URL convention keys `upstream` and `epoch` (the grype
`purlUpstreamQualifier` / `purlEpochQualifier` constants, not under
src). -/
def purlUpstreamQualifier : String := "upstream"

/-- Modelled from the spec: see `purlUpstreamQualifier`. -/
def purlEpochQualifier : String := "epoch"

/-- Modelled from the spec: the grype `getPURLQualifiers` (not under src)
parses qualifier key/value pairs out of a Package URL string, keys
verbatim with no canonicalization; a malformed string or one without
qualifiers yields an empty mapping.  The qualifier section is the text
after the first question mark, pairs are ampersand-separated and split
at their first equals sign. -/
def getPURLQualifiers (p : String) : List (String × String) :=
  match splitFirst '?' p.data with
  | none => []
  | some (_, q) =>
    (splitOnCharList '&' q).filterMap (fun pair =>
      match splitFirst '=' pair with
      | none => none
      | some (k, v) => some (String.mk k, String.mk v))

/-- Read one qualifier from the parsed mapping, defaulting to the empty
string like a Go map read. -/
def qualifierValue (qs : List (String × String)) (key : String) : String :=
  match qs.find? (fun kv => kv.1 == key) with
  | some kv => kv.2
  | none => ""

/-! ### Data model

The syft-side (input) records, modelled from the fields the source code
reads, and the grype-side (output) records.  The Go `interface{}`
metadata blob becomes a closed sum `SyftMetadata`; a failed Go type
assertion corresponds to the blob being of a different constructor. -/

structure DpkgMetadata where
  Source : String
  SourceVersion : String
deriving DecidableEq

structure SyftRpmdbMetadata where
  SourceRpm : String
  Epoch : Option Int
deriving DecidableEq

structure PomProperties where
  ArtifactID : String
  GroupID : String
deriving DecidableEq

structure JavaManifest where
  Main : List (String × String)
deriving DecidableEq

structure SyftJavaMetadata where
  VirtualPath : String
  PomProperties : Option PomProperties
  Manifest : Option JavaManifest
deriving DecidableEq

structure ApkMetadata where
  OriginPackage : String
deriving DecidableEq

/-- The metadata blob attached to a scanned package: one of the four
shapes this code inspects, or anything else (including Go `nil`), on
which every type assertion fails. -/
inductive SyftMetadata where
  | dpkg (m : DpkgMetadata)
  | rpmdb (m : SyftRpmdbMetadata)
  | java (m : SyftJavaMetadata)
  | apk (m : ApkMetadata)
  | other
deriving DecidableEq

/-- The scanner-declared metadata kind (a string in Go); `empty` is the
zero value `""` and `other` any value the dispatcher does not switch
on. -/
inductive SyftMetadataType where
  | DpkgMetadataType
  | RpmdbMetadataType
  | JavaMetadataType
  | ApkMetadataType
  | empty
  | other
deriving DecidableEq

/-- The package type tag; only `ApkPkg`, `DebPkg` and `RpmPkg` are
distinguished by the fallback tier of the dispatcher. -/
inductive PkgType where
  | ApkPkg
  | DebPkg
  | RpmPkg
  | other
deriving DecidableEq

/-- The scanned package record (`syft pkg.Package`), restricted to the
fields the source reads; `PType` renders the Go `Type` field, whose name is
a reserved word here. -/
structure SyftPackage where
  id : String
  Name : String
  Version : String
  Locations : List String
  Licenses : List String
  Language : String
  PType : PkgType
  CPEs : List String
  PURL : String
  MetadataType : SyftMetadataType
  Metadata : SyftMetadata
deriving DecidableEq

/-- The grype `MetadataType`; `unknown` is the Go zero value `""`. -/
inductive MetadataType where
  | unknown
  | RpmdbMetadataType
  | JavaMetadataType
deriving DecidableEq

structure RpmdbMetadata where
  Epoch : Option Int
deriving DecidableEq

structure JavaMetadata where
  VirtualPath : String
  PomArtifactID : String
  PomGroupID : String
  ManifestName : String
deriving DecidableEq

/-- The matching-specific metadata fragment (`Metadata interface{}` in the
output record): a closed sum of the shapes the source ever stores. -/
inductive Metadata where
  | rpmdb (m : RpmdbMetadata)
  | java (m : JavaMetadata)
deriving DecidableEq

structure UpstreamPackage where
  Name : String
  Version : String := ""
deriving DecidableEq

/-- The warnings the source emits through `log.Warnf`, one constructor per
call site, modelled as explicit data. -/
inductive LogMessage where
  | unableToExtractNameAndVersion (sourceRpm : String)
  | unableToExtractRPMMetadata
  | unableToParseRPMEpoch (epoch : String)
  | unableToExtractDPKGMetadata
  | unableToExtractJavaMetadata
  | unableToExtractAPKMetadata
deriving DecidableEq

/-- Recognize the degraded-parse warning of `rpmdbDataFromPkg` (the branch
taken when both the parsed name and the parsed version are empty). -/
def LogMessage.isDegradedParse : LogMessage → Bool
  | .unableToExtractNameAndVersion _ => true
  | _ => false

/-! ### Per-ecosystem extractors -/

/-- Model of `dpkgDataFromPURL`: read the `upstream` qualifier; when it contains an
`@`, split into source name and source version at the first `@`; emit one
upstream reference iff the qualifier is non-empty. -/
def dpkgDataFromPURL (p : String) : List UpstreamPackage :=
  let qualifiers := getPURLQualifiers p
  let upstream := qualifierValue qualifiers purlUpstreamQualifier
  if upstream == "" then []
  else
    match splitFirst '@' upstream.data with
    | none => [{ Name := upstream, Version := "" }]
    | some (src, ver) => [{ Name := String.mk src, Version := String.mk ver }]

/-- Model of `dpkgDataFromPkg`: when the blob is Debian-shaped, emit one upstream
reference iff `Source` is non-empty (with `SourceVersion` as its
version); otherwise warn and emit nothing. -/
def dpkgDataFromPkg (p : SyftPackage) : List UpstreamPackage × List LogMessage :=
  match p.Metadata with
  | .dpkg value =>
    if value.Source != "" then
      ([{ Name := value.Source, Version := value.SourceVersion }], [])
    else ([], [])
  | _ => ([], [.unableToExtractDPKGMetadata])

/-- Model of `rpmdbDataFromPkg`: when the blob is RPM-shaped, parse `SourceRpm`
through `getNameAndELVersion` (warning when both results are empty,
suppressing the upstream when the parsed name equals the own package
name), and emit an epoch fragment when the blob carries a non-nil epoch;
otherwise warn and emit nothing. -/
def rpmdbDataFromPkg (p : SyftPackage) :
    Option RpmdbMetadata × List UpstreamPackage × List LogMessage :=
  match p.Metadata with
  | .rpmdb value =>
    let upstreamsLogs :=
      if value.SourceRpm != "" then
        let nv := getNameAndELVersion value.SourceRpm
        if nv.1 == "" && nv.2 == "" then
          (([] : List UpstreamPackage), [LogMessage.unableToExtractNameAndVersion value.SourceRpm])
        else if nv.1 != p.Name then
          ([{ Name := nv.1, Version := nv.2 }], ([] : List LogMessage))
        else ([], [])
      else ([], [])
    let metadata : Option RpmdbMetadata :=
      match value.Epoch with
      | none => none
      | some e => some { Epoch := some e }
    (metadata, upstreamsLogs.1, upstreamsLogs.2)
  | _ => (none, [], [.unableToExtractRPMMetadata])

/-- Model of `rpmdbDataFromPURL`: parse the `epoch` qualifier as an integer (warn
and omit the fragment on failure), and run `getNameAndELVersion` on the
`upstream` qualifier when non-empty, emitting the result unconditionally. -/
def rpmdbDataFromPURL (p : String) :
    Option RpmdbMetadata × List UpstreamPackage × List LogMessage :=
  let qualifiers := getPURLQualifiers p
  let upstream := qualifierValue qualifiers purlUpstreamQualifier
  let epoch := qualifierValue qualifiers purlEpochQualifier
  let metaLogs :=
    if epoch != "" then
      match Atoi epoch with
      | none => ((none : Option RpmdbMetadata), [LogMessage.unableToParseRPMEpoch epoch])
      | some value => (some { Epoch := some value }, [])
    else (none, [])
  let upstreams :=
    if upstream != "" then
      let nv := getNameAndELVersion upstream
      [{ Name := nv.1, Version := nv.2 }]
    else []
  (metaLogs.1, upstreams, metaLogs.2)

/-- Model of `javaDataFromPkg`: when the blob is Java-shaped, always produce a
fragment carrying virtual path, POM artifact/group ids (when POM
properties are present) and the manifest main-section `Name` entry (when
present); otherwise warn and produce nothing. -/
def javaDataFromPkg (p : SyftPackage) : Option JavaMetadata × List LogMessage :=
  match p.Metadata with
  | .java value =>
    let artifactGroup :=
      match value.PomProperties with
      | some pom => (pom.ArtifactID, pom.GroupID)
      | none => ("", "")
    let mname :=
      match value.Manifest with
      | some manifest =>
        match manifest.Main.find? (fun kv => kv.1 == "Name") with
        | some kv => kv.2
        | none => ""
      | none => ""
    (some { VirtualPath := value.VirtualPath, PomArtifactID := artifactGroup.1,
            PomGroupID := artifactGroup.2, ManifestName := mname }, [])
  | _ => (none, [.unableToExtractJavaMetadata])

/-- Model of `apkDataFromPURL`: emit one name-only upstream reference iff the
`upstream` qualifier is non-empty. -/
def apkDataFromPURL (p : String) : List UpstreamPackage :=
  let qualifiers := getPURLQualifiers p
  let upstream := qualifierValue qualifiers purlUpstreamQualifier
  if upstream != "" then [{ Name := upstream }] else []

/-- Model of `apkDataFromPkg`: when the blob is Alpine-shaped, emit one name-only
upstream reference iff `OriginPackage` is non-empty; otherwise warn. -/
def apkDataFromPkg (p : SyftPackage) : List UpstreamPackage × List LogMessage :=
  match p.Metadata with
  | .apk value =>
    if value.OriginPackage != "" then ([{ Name := value.OriginPackage }], [])
    else ([], [])
  | _ => ([], [.unableToExtractAPKMetadata])

/-! ### Dispatcher and canonical package -/

/-- Model of `dataFromPkg`: select the extractor by the declared metadata kind,
falling back to Package-URL extraction keyed by the package type when the
kind is the zero value; returns the metadata kind, the metadata fragment,
the upstream references and the emitted warnings. -/
def dataFromPkg (p : SyftPackage) :
    MetadataType × Option Metadata × List UpstreamPackage × List LogMessage :=
  match p.MetadataType with
  | .DpkgMetadataType =>
    let r := dpkgDataFromPkg p
    (.unknown, none, r.1, r.2)
  | .RpmdbMetadataType =>
    let r := rpmdbDataFromPkg p
    match r.1 with
    | some m => (.RpmdbMetadataType, some (.rpmdb m), r.2.1, r.2.2)
    | none => (.unknown, none, r.2.1, r.2.2)
  | .JavaMetadataType =>
    let r := javaDataFromPkg p
    match r.1 with
    | some m => (.JavaMetadataType, some (.java m), [], r.2)
    | none => (.unknown, none, [], r.2)
  | .ApkMetadataType =>
    let r := apkDataFromPkg p
    (.unknown, none, r.1, r.2)
  | .empty =>
    match p.PType with
    | .ApkPkg => (.unknown, none, apkDataFromPURL p.PURL, [])
    | .DebPkg => (.unknown, none, dpkgDataFromPURL p.PURL, [])
    | .RpmPkg =>
      let r := rpmdbDataFromPURL p.PURL
      match r.1 with
      | some m => (.RpmdbMetadataType, some (.rpmdb m), r.2.1, r.2.2)
      | none => (.unknown, none, r.2.1, r.2.2)
    | .other => (.unknown, none, [], [])
  | .other => (.unknown, none, [], [])

/-- The canonical (normalized) package record; `PType` renders the Go `Type`
field. -/
structure Package where
  ID : String
  Name : String
  Version : String
  Locations : List String
  Language : String
  Licenses : List String
  PType : PkgType
  CPEs : List String
  PURL : String
  Upstreams : List UpstreamPackage
  MetadataType : MetadataType
  Metadata : Option Metadata
deriving DecidableEq

/-- Model of `New`: build the canonical record from the common fields of
the scanned package plus the dispatcher output (the warnings are returned alongside,
rendering the log side channel). -/
def New (p : SyftPackage) : Package × List LogMessage :=
  let r := dataFromPkg p
  ({ ID := p.id, Name := p.Name, Version := p.Version, Locations := p.Locations,
     Language := p.Language, Licenses := p.Licenses, PType := p.PType,
     CPEs := p.CPEs, PURL := p.PURL, Upstreams := r.2.2.1,
     MetadataType := r.1, Metadata := r.2.1 }, r.2.2.2)

/-- Model of `ByID`: linear scan for the first package with the given identifier,
`none` when absent. -/
def ByID (id : String) (pkgs : List Package) : Option Package :=
  match pkgs with
  | [] => none
  | p :: rest => if p.ID == id then some p else ByID id rest

/-! ### Specification-side definitions used by individual claims -/

/-- The metadata-kind tag and the metadata fragment agree: the zero kind
comes with no fragment, and the `rpmdb` / `java` kinds come with a
fragment of the matching variant. -/
def kindFragmentAgree : MetadataType → Option Metadata → Bool
  | .unknown, none => true
  | .RpmdbMetadataType, some (.rpmdb _) => true
  | .JavaMetadataType, some (.java _) => true
  | _, _ => false

/-- What `rpmdbDataFromPURL` emits as upstream references, as a function
of the `upstream` qualifier value alone. -/
def upstreamsFromQualifier (upstream : String) : List UpstreamPackage :=
  if upstream != "" then
    [{ Name := (getNameAndELVersion upstream).1, Version := (getNameAndELVersion upstream).2 }]
  else []

/-- What `rpmdbDataFromPURL` emits as epoch fragment, as a function of
the `epoch` qualifier value alone. -/
def epochMetaFromQualifier (epoch : String) : Option RpmdbMetadata :=
  if epoch != "" then
    match Atoi epoch with
    | none => none
    | some v => some { Epoch := some v }
  else none

/-! ## Theorems -/

/-- The composed version built by `getNameAndELVersion` always contains
the joining hyphen, hence is never empty. -/
theorem getNameAndELVersion_snd_ne_empty (s : String) : (getNameAndELVersion s).2 ≠ "" := by
  intro h
  have h2 := congrArg String.length h
  simp [getNameAndELVersion, String.length_append] at h2
  exact absurd h2.1.2 (by decide)

/-- Claim C1, counterexample: the string `garbage` does not match the
source-RPM grammar, yet `getNameAndELVersion` does not return the empty
string for the composed version (it returns the bare hyphen), refuting
the non-matching half of the claim. -/
theorem C1_counterexample :
    reFullMatch rpmPackageNamePattern "garbage" = none ∧
    getNameAndELVersion "garbage" ≠ ("", "") := by decide

/-- Claim C1 (amended): on a filename matching the source-RPM grammar,
`getNameAndELVersion` returns the captured name and the captured version
and release joined by a hyphen; on a non-matching input it returns the
empty string for the name and the bare hyphen `-` (not the empty string)
for the composed version. -/
theorem C1_source_rpm_parse (s : String) :
    (reFullMatch rpmPackageNamePattern s = none → getNameAndELVersion s = ("", "-")) ∧
    (∀ caps, reFullMatch rpmPackageNamePattern s = some caps →
      getNameAndELVersion s =
        (capLookup caps "name",
         capLookup caps "version" ++ "-" ++ capLookup caps "release")) := by
  constructor
  · intro h
    simp [getNameAndELVersion, MatchCaptureGroups, h]
  · intro caps h
    simp [getNameAndELVersion, MatchCaptureGroups, h]

/-- Claim C1, witness: the amended theorem applied to the non-matching
input `garbage` and to a matching filename. -/
theorem C1_witness :
    getNameAndELVersion "garbage" = ("", "-") ∧
    getNameAndELVersion "util-linux-ng-2.17.2-12.28.el6_9.2.src.rpm" =
      (capLookup [("name", "util-linux-ng"), ("version", "2.17.2"),
          ("release", "12.28.el6_9.2"), ("arch", "src")] "name",
       capLookup [("name", "util-linux-ng"), ("version", "2.17.2"),
          ("release", "12.28.el6_9.2"), ("arch", "src")] "version" ++ "-" ++
       capLookup [("name", "util-linux-ng"), ("version", "2.17.2"),
          ("release", "12.28.el6_9.2"), ("arch", "src")] "release") :=
  ⟨(C1_source_rpm_parse "garbage").1 (by decide),
   (C1_source_rpm_parse "util-linux-ng-2.17.2-12.28.el6_9.2.src.rpm").2
     [("name", "util-linux-ng"), ("version", "2.17.2"),
      ("release", "12.28.el6_9.2"), ("arch", "src")] (by decide)⟩

/-- Claim C2, failing input: an RPM-shaped metadata blob whose
`SourceRpm` does not match the grammar makes `rpmdbDataFromPkg` emit an
`UpstreamPackage` whose name is the empty string (and whose version is
the bare hyphen), because the degraded-parse guard compares the composed
version — which always contains the joining hyphen — against the empty
string and therefore never fires. -/
theorem C2_empty_name_upstream_emitted :
    rpmdbDataFromPkg
      { id := "1", Name := "util-linux", Version := "2.17.2", Locations := [],
        Licenses := [], Language := "", PType := .RpmPkg, CPEs := [], PURL := "",
        MetadataType := .RpmdbMetadataType,
        Metadata := .rpmdb { SourceRpm := "garbage", Epoch := none } } =
      (none, [{ Name := "", Version := "-" }], []) := by decide

/-- Claim C3: the dispatcher on a package with empty metadata kind, RPM
type and the Package URL
`pkg:rpm/util-linux-ng@2.17.2?upstream=util-linux-ng-2.17.2-12.28.el6_9.2.src.rpm&epoch=4`
yields exactly one upstream reference named `util-linux-ng` at version
`2.17.2-12.28.el6_9.2` and an `rpmdb` metadata fragment carrying epoch
4. -/
theorem C3_dispatch_fallback_rpm_purl :
    dataFromPkg
      { id := "1", Name := "util-linux-ng", Version := "2.17.2", Locations := [],
        Licenses := [], Language := "", PType := .RpmPkg, CPEs := [],
        PURL := "pkg:rpm/util-linux-ng@2.17.2?upstream=util-linux-ng-2.17.2-12.28.el6_9.2.src.rpm&epoch=4",
        MetadataType := .empty, Metadata := .other } =
      (.RpmdbMetadataType, some (.rpmdb { Epoch := some 4 }),
       [{ Name := "util-linux-ng", Version := "2.17.2-12.28.el6_9.2" }], []) := by decide

/-- Claim C4: when the parsed upstream name of an RPM-shaped metadata
blob field `SourceRpm` equals the own name of the package, `rpmdbDataFromPkg`
emits zero upstream references, even when the filename parses
successfully. -/
theorem C4_self_reference_suppressed (p : SyftPackage) (value : SyftRpmdbMetadata)
    (hmeta : p.Metadata = .rpmdb value)
    (hname : (getNameAndELVersion value.SourceRpm).1 = p.Name) :
    (rpmdbDataFromPkg p).2.1 = [] := by
  simp only [rpmdbDataFromPkg, hmeta]
  by_cases hs : value.SourceRpm = ""
  · simp [hs]
  · have hsb : (value.SourceRpm != "") = true := by simp [hs]
    by_cases hg : (getNameAndELVersion value.SourceRpm).1 = "" ∧
        (getNameAndELVersion value.SourceRpm).2 = ""
    · simp [hsb, hg.1, hg.2]
    · have hgb : ((getNameAndELVersion value.SourceRpm).1 == "" &&
          (getNameAndELVersion value.SourceRpm).2 == "") = false := by
        rcases not_and_or.mp hg with h | h <;> simp [h]
      have hnb : ((getNameAndELVersion value.SourceRpm).1 != p.Name) = false := by
        simp [hname]
      simp [hsb, hgb, hnb]

/-- Claim C4, witness: a package named `util-linux-ng` whose `SourceRpm`
parses back to the name `util-linux-ng` yields no upstream references. -/
theorem C4_witness :
    (rpmdbDataFromPkg
      { id := "1", Name := "util-linux-ng", Version := "2.17.2", Locations := [],
        Licenses := [], Language := "", PType := .RpmPkg, CPEs := [], PURL := "",
        MetadataType := .RpmdbMetadataType,
        Metadata := .rpmdb
          { SourceRpm := "util-linux-ng-2.17.2-12.28.el6_9.2.src.rpm",
            Epoch := some 4 } }).2.1 = [] :=
  C4_self_reference_suppressed _
    { SourceRpm := "util-linux-ng-2.17.2-12.28.el6_9.2.src.rpm", Epoch := some 4 }
    rfl (by decide)

/-- Claim C5: for every input package the dispatcher metadata-kind tag
and metadata fragment agree: the zero kind comes with no fragment, the
`rpmdb` and `java` kinds with a fragment of the matching variant. -/
theorem C5_metadata_kind_agreement (p : SyftPackage) :
    kindFragmentAgree (dataFromPkg p).1 (dataFromPkg p).2.1 = true := by
  cases hmt : p.MetadataType with
  | DpkgMetadataType => simp [dataFromPkg, hmt, kindFragmentAgree]
  | RpmdbMetadataType =>
    cases hr : (rpmdbDataFromPkg p).1 <;>
      simp [dataFromPkg, hmt, hr, kindFragmentAgree]
  | JavaMetadataType =>
    cases hr : (javaDataFromPkg p).1 <;>
      simp [dataFromPkg, hmt, hr, kindFragmentAgree]
  | ApkMetadataType => simp [dataFromPkg, hmt, kindFragmentAgree]
  | empty =>
    cases hp : p.PType with
    | ApkPkg => simp [dataFromPkg, hmt, hp, kindFragmentAgree]
    | DebPkg => simp [dataFromPkg, hmt, hp, kindFragmentAgree]
    | RpmPkg =>
      cases hr : (rpmdbDataFromPURL p.PURL).1 <;>
        simp [dataFromPkg, hmt, hp, hr, kindFragmentAgree]
    | other => simp [dataFromPkg, hmt, hp, kindFragmentAgree]
  | other => simp [dataFromPkg, hmt, kindFragmentAgree]

/-- Claim C6: RPM Package-URL extraction recovers from an unparseable
epoch qualifier — a non-empty epoch that fails integer parsing yields no
`rpmdb` fragment and a logged warning (never a failure, the function
being total), while an epoch that parses yields a fragment carrying that
integer. -/
theorem C6_epoch_parse_failure_recovered (p : String) :
    (qualifierValue (getPURLQualifiers p) purlEpochQualifier ≠ "" →
      Atoi (qualifierValue (getPURLQualifiers p) purlEpochQualifier) = none →
      (rpmdbDataFromPURL p).1 = none ∧
        LogMessage.unableToParseRPMEpoch
            (qualifierValue (getPURLQualifiers p) purlEpochQualifier) ∈
          (rpmdbDataFromPURL p).2.2) ∧
    (∀ v, Atoi (qualifierValue (getPURLQualifiers p) purlEpochQualifier) = some v →
      (rpmdbDataFromPURL p).1 = some { Epoch := some v }) := by
  constructor
  · intro hne hfail
    have hb : (qualifierValue (getPURLQualifiers p) purlEpochQualifier != "") = true := by
      simp [hne]
    simp [rpmdbDataFromPURL, hb, hfail]
  · intro v hv
    by_cases hne : qualifierValue (getPURLQualifiers p) purlEpochQualifier = ""
    · rw [hne] at hv
      rw [show Atoi "" = none from rfl] at hv
      exact Option.noConfusion hv
    · have hb : (qualifierValue (getPURLQualifiers p) purlEpochQualifier != "") = true := by
        simp [hne]
      simp [rpmdbDataFromPURL, hb, hv]

/-- Claim C6, witness: the theorem applied to a Package URL with epoch
`not-a-number` (no fragment, one warning) and to one with epoch `4` (a
fragment carrying 4). -/
theorem C6_witness :
    ((rpmdbDataFromPURL "pkg:rpm/x@1?epoch=not-a-number").1 = none ∧
      LogMessage.unableToParseRPMEpoch
          (qualifierValue (getPURLQualifiers "pkg:rpm/x@1?epoch=not-a-number")
            purlEpochQualifier) ∈
        (rpmdbDataFromPURL "pkg:rpm/x@1?epoch=not-a-number").2.2) ∧
    (rpmdbDataFromPURL "pkg:rpm/x@1?epoch=4").1 = some { Epoch := some 4 } :=
  ⟨(C6_epoch_parse_failure_recovered "pkg:rpm/x@1?epoch=not-a-number").1
      (by decide) (by decide),
   (C6_epoch_parse_failure_recovered "pkg:rpm/x@1?epoch=4").2 4 (by decide)⟩

/-- Claim C7: `ByID` returns `none` exactly when no package in the
sequence carries the identifier, and any returned package carries the
identifier and is the first occurrence in sequence order (every earlier
package has a different identifier). -/
theorem C7_byid_first_match (id : String) (pkgs : List Package) :
    (ByID id pkgs = none ↔ ∀ p ∈ pkgs, p.ID ≠ id) ∧
    (∀ q, ByID id pkgs = some q →
      q.ID = id ∧ ∃ i, i < pkgs.length ∧ pkgs[i]? = some q ∧
        ∀ p ∈ pkgs.take i, p.ID ≠ id) := by
  induction pkgs with
  | nil => simp [ByID]
  | cons p rest ih =>
    rcases Bool.eq_false_or_eq_true (p.ID == id) with hb | hb
    · have hid : p.ID = id := by simpa using hb
      constructor
      · constructor
        · intro hnone
          simp [ByID, hb] at hnone
        · intro hall
          exact absurd hid (hall p (List.mem_cons_self p rest))
      · intro q hq
        have hq2 : some p = some q := by simpa [ByID, hb] using hq
        cases Option.some.inj hq2
        exact ⟨hid, 0, by simp, by simp, by simp⟩
    · have hid : p.ID ≠ id := by simpa using hb
      constructor
      · rw [show ByID id (p :: rest) = ByID id rest from by simp [ByID, hb]]
        rw [ih.1]
        constructor
        · intro hall q hq
          rcases List.mem_cons.mp hq with rfl | hq
          · exact hid
          · exact hall q hq
        · intro hall q hq
          exact hall q (List.mem_cons_of_mem p hq)
      · intro q hq
        rw [show ByID id (p :: rest) = ByID id rest from by simp [ByID, hb]] at hq
        obtain ⟨hqid, i, hi, hget, htake⟩ := ih.2 q hq
        refine ⟨hqid, i + 1, by simpa using hi, by simpa using hget, ?_⟩
        intro x hx
        rcases List.mem_cons.mp (by simpa [List.take_succ_cons] using hx) with rfl | hx
        · exact hid
        · exact htake x hx

/-- Claim C7, witness: lookup of an absent identifier in a one-element
catalog returns the explicit absent result, and lookup of a duplicated
identifier returns the first occurrence. -/
theorem C7_witness :
    ByID "b"
      [{ ID := "a", Name := "n", Version := "v", Locations := [], Language := "",
         Licenses := [], PType := .other, CPEs := [], PURL := "", Upstreams := [],
         MetadataType := .unknown, Metadata := none }] = none :=
  (C7_byid_first_match "b"
    [{ ID := "a", Name := "n", Version := "v", Locations := [], Language := "",
       Licenses := [], PType := .other, CPEs := [], PURL := "", Upstreams := [],
       MetadataType := .unknown, Metadata := none }]).1.mpr (by decide)

/-- Claim C8: a Debian-shaped metadata blob yields exactly one upstream
reference carrying `Source` and `SourceVersion` when `Source` is
non-empty, and none when `Source` is empty. -/
theorem C8_dpkg_source_upstream (p : SyftPackage) (value : DpkgMetadata)
    (hmeta : p.Metadata = .dpkg value) :
    (value.Source ≠ "" →
      (dpkgDataFromPkg p).1 = [{ Name := value.Source, Version := value.SourceVersion }]) ∧
    (value.Source = "" → (dpkgDataFromPkg p).1 = []) := by
  constructor
  · intro h
    have hb : (value.Source != "") = true := by simp [h]
    simp [dpkgDataFromPkg, hmeta, hb]
  · intro h
    have hb : (value.Source != "") = false := by simp [h]
    simp [dpkgDataFromPkg, hmeta, hb]

/-- Claim C8, witness: the theorem applied to a package with a non-empty
`Source` and to one with an empty `Source`. -/
theorem C8_witness :
    (dpkgDataFromPkg
      { id := "1", Name := "nginx", Version := "1.0", Locations := [], Licenses := [],
        Language := "", PType := .DebPkg, CPEs := [], PURL := "",
        MetadataType := .DpkgMetadataType,
        Metadata := .dpkg { Source := "nginx-src", SourceVersion := "1.0-2" } }).1 =
      [{ Name := "nginx-src", Version := "1.0-2" }] ∧
    (dpkgDataFromPkg
      { id := "2", Name := "nginx", Version := "1.0", Locations := [], Licenses := [],
        Language := "", PType := .DebPkg, CPEs := [], PURL := "",
        MetadataType := .DpkgMetadataType,
        Metadata := .dpkg { Source := "", SourceVersion := "" } }).1 = [] :=
  ⟨(C8_dpkg_source_upstream _ { Source := "nginx-src", SourceVersion := "1.0-2" } rfl).1
      (by decide),
   (C8_dpkg_source_upstream _ { Source := "", SourceVersion := "" } rfl).2 rfl⟩

/-- Claim C9: the composed version returned by `getNameAndELVersion`
always contains the joining hyphen and is never empty, so the
degraded-parse warning branch of `rpmdbDataFromPkg` — which requires both
the parsed name and the parsed version to be empty — never fires for any
input package. -/
theorem C9_degraded_branch_unreachable (s : String) (p : SyftPackage) :
    (∃ pre post, (getNameAndELVersion s).2 = pre ++ "-" ++ post) ∧
    (getNameAndELVersion s).2 ≠ "" ∧
    ∀ w ∈ (rpmdbDataFromPkg p).2.2, w.isDegradedParse = false := by
  refine ⟨⟨MatchCaptureGroups rpmPackageNamePattern s "version",
           MatchCaptureGroups rpmPackageNamePattern s "release", rfl⟩,
    getNameAndELVersion_snd_ne_empty s, ?_⟩
  cases hm : p.Metadata with
  | rpmdb value =>
    by_cases hs : value.SourceRpm = ""
    · simp [rpmdbDataFromPkg, hm, hs]
    · have hsb : (value.SourceRpm != "") = true := by simp [hs]
      have hv2 : ((getNameAndELVersion value.SourceRpm).2 == "") = false := by
        simp [getNameAndELVersion_snd_ne_empty value.SourceRpm]
      have hgb : ((getNameAndELVersion value.SourceRpm).1 == "" &&
          (getNameAndELVersion value.SourceRpm).2 == "") = false := by
        simp [hv2]
      by_cases hn : (getNameAndELVersion value.SourceRpm).1 = p.Name
      · have hnb : ((getNameAndELVersion value.SourceRpm).1 != p.Name) = false := by
          simp [hn]
        simp [rpmdbDataFromPkg, hm, hsb, hgb, hnb]
      · have hnb : ((getNameAndELVersion value.SourceRpm).1 != p.Name) = true := by
          simp [hn]
        simp [rpmdbDataFromPkg, hm, hsb, hgb, hnb]
  | dpkg value => simp [rpmdbDataFromPkg, hm, LogMessage.isDegradedParse]
  | java value => simp [rpmdbDataFromPkg, hm, LogMessage.isDegradedParse]
  | apk value => simp [rpmdbDataFromPkg, hm, LogMessage.isDegradedParse]
  | other => simp [rpmdbDataFromPkg, hm, LogMessage.isDegradedParse]

/-- Claim C9, witness: the theorem applied to a non-matching source-RPM
string and to a package whose `SourceRpm` does not match the grammar —
even there the degraded-parse warning is absent. -/
theorem C9_witness :
    (getNameAndELVersion "garbage").2 ≠ "" ∧
    ∀ w ∈ (rpmdbDataFromPkg
      { id := "1", Name := "util-linux", Version := "2.17.2", Locations := [],
        Licenses := [], Language := "", PType := .RpmPkg, CPEs := [], PURL := "",
        MetadataType := .RpmdbMetadataType,
        Metadata := .rpmdb { SourceRpm := "garbage", Epoch := none } }).2.2,
      w.isDegradedParse = false :=
  ⟨(C9_degraded_branch_unreachable "garbage"
      { id := "1", Name := "util-linux", Version := "2.17.2", Locations := [],
        Licenses := [], Language := "", PType := .RpmPkg, CPEs := [], PURL := "",
        MetadataType := .RpmdbMetadataType,
        Metadata := .rpmdb { SourceRpm := "garbage", Epoch := none } }).2.1,
   (C9_degraded_branch_unreachable "garbage"
      { id := "1", Name := "util-linux", Version := "2.17.2", Locations := [],
        Licenses := [], Language := "", PType := .RpmPkg, CPEs := [], PURL := "",
        MetadataType := .RpmdbMetadataType,
        Metadata := .rpmdb { SourceRpm := "garbage", Epoch := none } }).2.2⟩

/-- Claim C10: in `rpmdbDataFromPURL` the upstream references are a
function of the `upstream` qualifier alone and the epoch fragment a
function of the `epoch` qualifier alone — neither a malformed epoch nor a
malformed upstream suppresses the emission of the other; in particular a
non-empty `upstream` qualifier always yields an upstream reference. -/
theorem C10_epoch_upstream_independent (p : String) :
    (rpmdbDataFromPURL p).2.1 =
      upstreamsFromQualifier (qualifierValue (getPURLQualifiers p) purlUpstreamQualifier) ∧
    (rpmdbDataFromPURL p).1 =
      epochMetaFromQualifier (qualifierValue (getPURLQualifiers p) purlEpochQualifier) ∧
    (qualifierValue (getPURLQualifiers p) purlUpstreamQualifier ≠ "" →
      (rpmdbDataFromPURL p).2.1 ≠ []) := by
  refine ⟨rfl, ?_, ?_⟩
  · by_cases he : qualifierValue (getPURLQualifiers p) purlEpochQualifier = ""
    · simp [rpmdbDataFromPURL, epochMetaFromQualifier, he]
    · have hb : (qualifierValue (getPURLQualifiers p) purlEpochQualifier != "") = true := by
        simp [he]
      cases ha : Atoi (qualifierValue (getPURLQualifiers p) purlEpochQualifier) with
      | none => simp [rpmdbDataFromPURL, epochMetaFromQualifier, hb, ha]
      | some v => simp [rpmdbDataFromPURL, epochMetaFromQualifier, hb, ha]
  · intro hu
    have hb : (qualifierValue (getPURLQualifiers p) purlUpstreamQualifier != "") = true := by
      simp [hu]
    simp [rpmdbDataFromPURL, hb]

/-- Claim C10, witness: with both qualifiers malformed for their
downstream parses (`upstream=garbage`, `epoch=not-a-number`), the
upstream reference is still emitted. -/
theorem C10_witness :
    (rpmdbDataFromPURL "pkg:rpm/a@1?upstream=garbage&epoch=not-a-number").2.1 ≠ [] :=
  (C10_epoch_upstream_independent "pkg:rpm/a@1?upstream=garbage&epoch=not-a-number").2.2
    (by decide)

end Grype
